import Mathlib

/-
Shallow embedding of the compliance audit scoring pipeline:
regulation knowledge base (rkb_loader.py), feature validator (data_validator.py),
compliance classifier (compliance_checker.py) and the voting/aggregation stage
(voting_agent.py).  Numeric values are modelled as rationals; Python dicts with
optional keys are modelled as structures of `Option` fields; Python functions
that can raise return `Option` (with `none` standing for an escaped exception).
-/

namespace CCDF

/-- One AQI category bin `{min, max, category}`; `max = none` models a JSON `null`
(the open-ended "Severe" tier). -/
structure AqiCategory where
  min : ℚ
  max : Option ℚ
  category : String
deriving DecidableEq

/-- One NAAQS threshold record `{averaging_time, level}`. -/
structure NaaqsStandard where
  averaging_time : String
  level : ℚ
deriving DecidableEq

/-- One entry of an agency's `standards.air_quality` list. -/
structure AirQualityParam where
  parameter_id : String
  aqi_categories : List AqiCategory
  naaqs_standards : List NaaqsStandard
deriving DecidableEq

/-- The regulation document of one agency: `agency_regs['standards']['air_quality']`. -/
structure AgencyRegs where
  air_quality : List AirQualityParam
deriving DecidableEq

/-- The range test of `_get_cpcb_category`:
`cat['min'] <= value and (cat['max'] is None or value <= cat['max'])`. -/
def binMatches (cat : AqiCategory) (value : ℚ) : Bool :=
  decide (cat.min ≤ value) &&
    (match cat.max with
     | none => true
     | some m => decide (value ≤ m))

/-- The inner loop of `_get_cpcb_category`: return the category of the first
matching bin, if any. -/
def firstCategory (cats : List AqiCategory) (value : ℚ) : Option String :=
  match cats with
  | [] => none
  | c :: rest => if binMatches c value then some c.category else firstCategory rest value

/-- The outer loop of `_get_cpcb_category` over `standards.air_quality`: a
parameter entry whose id matches is scanned; if none of its bins match the scan
continues with later entries, and the fall-through result is `"Uncategorized"`. -/
def get_cpcb_category_over (value : ℚ) (param_id : String) :
    List AirQualityParam → String
  | [] => "Uncategorized"
  | p :: rest =>
    if p.parameter_id = param_id then
      match firstCategory p.aqi_categories value with
      | some c => c
      | none => get_cpcb_category_over value param_id rest
    else get_cpcb_category_over value param_id rest

/-- `ComplianceCheckerAgent._get_cpcb_category`. -/
def get_cpcb_category (value : ℚ) (param_id : String) (agency_regs : AgencyRegs) : String :=
  get_cpcb_category_over value param_id agency_regs.air_quality

/-- `ComplianceCheckerAgent._check_epa_violation`: the value violates if it
exceeds the level of any threshold record with a recognized averaging window. -/
def check_epa_violation (value : ℚ) (param_id : String) (agency_regs : AgencyRegs) : Bool :=
  agency_regs.air_quality.any fun p =>
    p.parameter_id == param_id &&
      p.naaqs_standards.any fun std =>
        (std.averaging_time == "24 hours" || std.averaging_time == "8 hours" ||
          std.averaging_time == "1 hour") && decide (std.level < value)

/-! ## Dataset model -/

/-- A cell of the tabular dataset.  `num` is any value that `float()` /
`pd.to_numeric` coerces (with its coerced value); `nonnum` is any value that
fails numeric coercion; `catval` and `violflag` are the values written into the
derived `<param>_Category` / `<param>_Violation` columns. -/
inductive Cell where
  | num : ℚ → Cell
  | nonnum : String → Cell
  | catval : String → Cell
  | violflag : Bool → Cell
deriving DecidableEq

/-- A pandas DataFrame, modelled as its ordered list of named columns. -/
abbrev DataFrame := List (String × List Cell)

/-- `float(x)` / numeric coercion of one cell. -/
def coerce_float : Cell → Option ℚ
  | Cell.num q => some q
  | _ => none

/-- `df.columns`, in order. -/
def columnNames (df : DataFrame) : List String := df.map Prod.fst

/-- `df[name]`: the first column with that name. -/
def getColumn (df : DataFrame) (name : String) : Option (List Cell) :=
  match df with
  | [] => none
  | (n, cells) :: rest => if n = name then some cells else getColumn rest name

/-- `df[name] = cells`: pandas column assignment overwrites an existing column
in place and otherwise appends a new column at the end. -/
def setColumn (df : DataFrame) (name : String) (cells : List Cell) : DataFrame :=
  match df with
  | [] => [(name, cells)]
  | (n, cs) :: rest =>
    if n = name then (name, cells) :: rest else (n, cs) :: setColumn rest name cells

/-- `len(df)`: the row count (the length of the first column; 0 for a
column-less frame). -/
def nrows (df : DataFrame) : Nat :=
  match df with
  | [] => 0
  | (_, cells) :: _ => cells.length

/-! ## Compliance checker (`ComplianceCheckerAgent.run_checker`) -/

/-- `all_param_ids`: the parameter ids declared for the agency. -/
def all_param_ids (agency_regs : AgencyRegs) : List String :=
  agency_regs.air_quality.map (·.parameter_id)

/-- `series.apply(f)` where `f` first coerces with `float()`: `none` models the
coercion raising on a non-coercible value. -/
def applySeries (f : ℚ → Cell) : List Cell → Option (List Cell)
  | [] => some []
  | c :: rest =>
    match coerce_float c, applySeries f rest with
    | some q, some ds => some (f q :: ds)
    | _, _ => none

/-- Build a `<param>_Category` column:
`processed_df[param_id].apply(lambda x: self._get_cpcb_category(float(x), ...))`. -/
def applyCategoryColumn (agency_regs : AgencyRegs) (param_id : String)
    (cells : List Cell) : Option (List Cell) :=
  applySeries (fun q => Cell.catval (get_cpcb_category q param_id agency_regs)) cells

/-- Build a `<param>_Violation` column, analogously. -/
def applyViolationColumn (agency_regs : AgencyRegs) (param_id : String)
    (cells : List Cell) : Option (List Cell) :=
  applySeries (fun q => Cell.violflag (check_epa_violation q param_id agency_regs)) cells

/-- The loop `for param_id in processed_df.columns:` of `run_checker`.  The
iterated list is the snapshot of the column names taken at loop entry; the
frame is threaded through because each assignment reads the current frame. -/
def annotateColumns (agency_regs : AgencyRegs) (agency_key : String) :
    List String → DataFrame → Option DataFrame
  | [], df => some df
  | param_id :: rest, df =>
    if (all_param_ids agency_regs).contains param_id then
      if agency_key = "cpcb_standards" then
        match getColumn df param_id with
        | none => none
        | some cells =>
          match applyCategoryColumn agency_regs param_id cells with
          | none => none
          | some newCells =>
            annotateColumns agency_regs agency_key rest
              (setColumn df (param_id ++ "_Category") newCells)
      else if agency_key = "epa_standards" then
        match getColumn df param_id with
        | none => none
        | some cells =>
          match applyViolationColumn agency_regs param_id cells with
          | none => none
          | some newCells =>
            annotateColumns agency_regs agency_key rest
              (setColumn df (param_id ++ "_Violation") newCells)
      else annotateColumns agency_regs agency_key rest df
    else annotateColumns agency_regs agency_key rest df

/-- `series.isin(['Good', 'Satisfactory'])` on a derived category cell. -/
def isCompliantCell (c : Cell) : Bool :=
  c == Cell.catval "Good" || c == Cell.catval "Satisfactory"

/-- `series.value_counts()` restricted to category cells, as a count function. -/
def countCat (cells : List Cell) (s : String) : Nat :=
  (cells.filter fun c => c == Cell.catval s).length

/-- Left-pad a two-digit fraction part. -/
def pad2 (n : Nat) : String :=
  if n < 10 then "0" ++ toString n else toString n

/-- `f"{x:.2f}%"` for the non-negative scores this pipeline produces: round to
hundredths (Python rounds the underlying binary value half-to-even; no tie
arises for the values of this development) and print with two decimals. -/
def formatPercent (q : ℚ) : String :=
  let r := q * 100 + 1 / 2
  let h := r.num.toNat / r.den
  toString (h / 100) ++ "." ++ pad2 (h % 100) ++ "%"

/-- The compliance report dict.  A failure report carries only `status` and
`message`; a success report carries `status`, `agency`,
`compliance_score_percent` and `category_distribution` (the distribution is
modelled as its count function). -/
structure ComplianceReport where
  status : String
  message : Option String
  agency : Option String
  compliance_score_percent : Option String
  category_distribution : Option (String → Nat)

/-- `ComplianceCheckerAgent.run_checker`.  `agency_regs = none` models
`rkb.get_regulation_by_agency` returning a falsy (empty) dict; the result
`none` models an exception escaping (`float()` on a non-coercible value). -/
def run_checker (agency_regs : Option AgencyRegs) (df : DataFrame) (agency_key : String) :
    Option (ComplianceReport × DataFrame) :=
  match agency_regs with
  | none =>
    some ({ status := "FAILURE",
            message := some ("No regulations found for agency key \x27" ++ agency_key ++ "\x27."),
            agency := none, compliance_score_percent := none,
            category_distribution := none }, df)
  | some regs =>
    match annotateColumns regs agency_key (columnNames df) df with
    | none => none
    | some processed =>
      let total_rows := nrows processed
      if agency_key = "cpcb_standards" ∧ 0 < total_rows then
        match (columnNames processed).head? with
        | none => none
        | some firstName =>
          let first_cat_col := firstName ++ "_Category"
          let counted :=
            match getColumn processed first_cat_col with
            | some cells =>
              ((cells.filter isCompliantCell).length, some fun s => countCat cells s)
            | none => (0, some fun _ => 0)
          let compliance_score : ℚ := (counted.1 : ℚ) / (total_rows : ℚ) * 100
          some ({ status := "SUCCESS", message := none, agency := some agency_key,
                  compliance_score_percent := some (formatPercent compliance_score),
                  category_distribution := counted.2 }, processed)
      else
        some ({ status := "SUCCESS", message := none, agency := some agency_key,
                compliance_score_percent := some "N/A",
                category_distribution := some fun _ => 0 }, processed)

/-! ## Feature validator (`DataMappingAgent`) -/

/-- `DataMappingAgent._get_required_features` (for `standard_type='air_quality'`):
the declared parameter ids, `[]` when the agency is unknown. -/
def get_required_features (agency_regs : Option AgencyRegs) : List String :=
  match agency_regs with
  | none => []
  | some regs => regs.air_quality.map (·.parameter_id)

/-- `DataMappingAgent.check_feature_presence`: plain set algebra on the column
and required-feature sets (the source turns Python sets back into lists whose
order is unspecified; the sets themselves are the content). -/
def check_feature_presence (dataset_columns required_features : List String) :
    Finset String × Finset String × Finset String :=
  let dataset_set := dataset_columns.toFinset
  let required_set := required_features.toFinset
  (dataset_set ∩ required_set, required_set \ dataset_set, dataset_set \ required_set)

/-- One column of `validate_schema`: the column is recorded as a schema error
when it exists in the frame and some value fails numeric coercion. -/
def schemaErrorFlag (df : DataFrame) (col : String) : Bool :=
  match getColumn df col with
  | some cells => !(cells.all fun c => (coerce_float c).isSome)
  | none => false

/-- `DataMappingAgent.validate_schema`: the set of checked columns that contain
a non-coercible value (each mapped to the constant message
`"Contains non-numeric values."` in the source). -/
def validate_schema (df : DataFrame) (features_to_check : Finset String) : Finset String :=
  features_to_check.filter fun col => schemaErrorFlag df col

/-- Python `repr` of a list of strings, determinized: the source formats
`list(set)` whose order is unspecified, so a canonical order is chosen here. -/
def pyStrListRepr (l : List String) : String :=
  "[" ++ String.intercalate ", " (l.map fun s => "\x27" ++ s ++ "\x27") ++ "]"

/-- The missing features as a list, determinized to the order of the required
list (the source turns a Python set into a list of unspecified order). -/
def missing_list (required_features dataset_columns : List String) : List String :=
  required_features.dedup.filter fun f => !(dataset_columns.contains f)

/-- The schema-error columns as a list, determinized likewise. -/
def schema_error_list (df : DataFrame) (required_features : List String) : List String :=
  (required_features.dedup.filter fun f => (columnNames df).contains f).filter fun f =>
    schemaErrorFlag df f

/-- Python `repr` of the schema-error dict, determinized to sorted key order. -/
def pyErrDictRepr (cols : List String) : String :=
  "\x7b" ++
    String.intercalate ", "
      (cols.map fun s => "\x27" ++ s ++ "\x27: \x27Contains non-numeric values.\x27") ++
  "\x7d"

/-- The full validation report dict assembled by `run_validation`. -/
structure ValidationReport where
  status : String
  message : String
  agency : String
  file_path : String
  required_features : List String
  present_features : Finset String
  missing_features : Finset String
  extra_features : Finset String
  schema_errors : Finset String
deriving DecidableEq

/-- Result of `run_validation`: the early `{status, message}` failure dict for
an unknown agency, or the full report. -/
inductive ValidationResult where
  | earlyFailure (message : String)
  | report (r : ValidationReport)
deriving DecidableEq

/-- `DataMappingAgent.run_validation` after the dataset file has been loaded
into `df` (file I/O and read errors are outside the embedding). -/
def run_validation (agency_regs : Option AgencyRegs) (df : DataFrame)
    (file_path agency_key : String) : ValidationResult :=
  let required_features := get_required_features agency_regs
  if required_features.isEmpty then
    ValidationResult.earlyFailure
      ("No regulations found for agency key \x27" ++ agency_key ++ "\x27.")
  else
    let dataset_columns := columnNames df
    let fp := check_feature_presence dataset_columns required_features
    let present := fp.1
    let missing := fp.2.1
    let extra := fp.2.2
    let schema_errors := validate_schema df present
    let sm :=
      if missing ≠ ∅ then
        ("FAILURE", "Dataset is missing required features: " ++
          pyStrListRepr (missing_list required_features dataset_columns))
      else if schema_errors ≠ ∅ then
        ("FAILURE", "Dataset has schema errors: " ++
          pyErrDictRepr (schema_error_list df required_features))
      else
        ("SUCCESS", "Dataset validation passed. Ready for compliance checking.")
    ValidationResult.report
      { status := sm.1, message := sm.2, agency := agency_key, file_path := file_path,
        required_features := required_features, present_features := present,
        missing_features := missing, extra_features := extra,
        schema_errors := schema_errors }

/-- The `status` entry of a validation result (early failures carry
`"FAILURE"` in the source dict as well). -/
def validationStatusOf : ValidationResult → String
  | ValidationResult.earlyFailure _ => "FAILURE"
  | ValidationResult.report r => r.status

/-! ## Regulation store (`RegulatoryKnowledgeBase`) -/

/-- The loaded regulations dict, keyed by agency key (filename stem). -/
abbrev RegulationStore := List (String × AgencyRegs)

/-- The singleton's state: the loaded dict plus the `initialized` marker
attribute set by `__init__`. -/
structure RKBState where
  regulations : RegulationStore
  initialized : Bool
deriving DecidableEq

/-- `dict.get(key, {})` on the store; `none` models the empty-dict default. -/
def lookupStore : RegulationStore → String → Option AgencyRegs
  | [], _ => none
  | (k, v) :: rest, key => if k = key then some v else lookupStore rest key

/-- `RegulatoryKnowledgeBase.get_regulation_by_agency`. -/
def get_regulation_by_agency (s : RKBState) (agency_key : String) : Option AgencyRegs :=
  lookupStore s.regulations agency_key

/-- `RegulatoryKnowledgeBase.__init__` combined with the `__new__` singleton:
when an instance exists and carries the `initialized` attribute, the expensive
load is skipped and the cached state is returned unchanged; otherwise the
(would-be) load result is installed and the marker set. -/
def rkb_init (existing : Option RKBState) (load_result : RegulationStore) : RKBState :=
  match existing with
  | some s => if s.initialized then s else { regulations := load_result, initialized := true }
  | none => { regulations := load_result, initialized := true }

/-! ## Voting agent (`VotingAgent`) -/

/-- The validation-report dict as read by the voting stage (`.get` with
defaults; an absent key is `none`, the fully empty dict is all-`none`). -/
structure ValidationDict where
  status : Option String
  file_path : Option String
  agency : Option String
  required_features : Option (List String)
deriving DecidableEq

/-- The compliance-report dict as read by the voting stage. -/
structure ComplianceDict where
  status : Option String
  compliance_score_percent : Option String
deriving DecidableEq

/-- The performance-report dict as read by the voting stage. -/
structure PerformanceDict where
  status : Option String
  accuracy : Option ℚ
deriving DecidableEq

/-- The explainability-report dict; the voting stage never reads its fields. -/
structure XaiDict where
  status : Option String
deriving DecidableEq

def emptyValidationDict : ValidationDict := ⟨none, none, none, none⟩

def emptyComplianceDict : ComplianceDict := ⟨none, none⟩

def emptyPerformanceDict : PerformanceDict := ⟨none, none⟩

def emptyXaiDict : XaiDict := ⟨none⟩

/-- Python `float(s)` on the stripped score string: an optional sign followed
by decimal digits with an optional fractional part (at least one digit). -/
def takeDigits : List Char → List Char × List Char
  | [] => ([], [])
  | c :: rest =>
    if c.isDigit then
      let p := takeDigits rest
      (c :: p.1, p.2)
    else ([], c :: rest)

def digitsToNat (ds : List Char) : Nat :=
  ds.foldl (fun acc c => acc * 10 + (c.toNat - 48)) 0

def pyFloat (s : String) : Option ℚ :=
  let p0 :=
    match s.toList with
    | '-' :: r => ((-1 : ℚ), r)
    | '+' :: r => ((1 : ℚ), r)
    | r => ((1 : ℚ), r)
  let ipr := takeDigits p0.2
  match ipr.2 with
  | [] => if ipr.1.isEmpty then none else some (p0.1 * digitsToNat ipr.1)
  | '.' :: r =>
    let fpr := takeDigits r
    if fpr.2.isEmpty && !(ipr.1.isEmpty && fpr.1.isEmpty) then
      some (p0.1 * ((digitsToNat ipr.1 : ℚ) +
        (digitsToNat fpr.1 : ℚ) / ((10 : ℚ) ^ fpr.1.length)))
    else none
  | _ => none

/-- The component-score dict built by `_calculate_scores`, in insertion order
`feature_compliance`, `threshold_accuracy`, `performance_metrics`,
`xai_trust_score`. -/
structure ComponentScores where
  feature_compliance : ℚ
  threshold_accuracy : ℚ
  performance_metrics : ℚ
  xai_trust_score : ℚ
deriving DecidableEq

/-- `VotingAgent._calculate_scores`.  `none` models the `ValueError` escaping
from `float(score_str)` when a SUCCESS compliance report carries a
non-numeric score string (such as `"N/A"`). -/
def calculate_scores (validation_report : ValidationDict)
    (compliance_report : ComplianceDict) (performance_report : PerformanceDict)
    (model_features : List String) : Option ComponentScores :=
  let required_features := (validation_report.required_features.getD []).toFinset
  let model_features_set := model_features.toFinset
  let feature_compliance : ℚ :=
    if required_features = ∅ then 0
    else ((required_features ∩ model_features_set).card : ℚ) /
      (required_features.card : ℚ) * 100
  let score_str := (compliance_report.compliance_score_percent.getD "0%").replace "%" ""
  let threshold :=
    if compliance_report.status = some "SUCCESS" then pyFloat score_str else some 0
  match threshold with
  | none => none
  | some threshold_accuracy =>
    let performance_metrics : ℚ :=
      if performance_report.status = some "SUCCESS" then
        (performance_report.accuracy.getD 0) * 100
      else 0
    let xai_trust_score : ℚ :=
      if performance_report.status = some "SUCCESS" then 85 else 0
    some ⟨feature_compliance, threshold_accuracy, performance_metrics, xai_trust_score⟩

/-- `VotingAgent._calculate_final_grade`: the weighted sum (in the score
dict's insertion order) and the letter grade. -/
def calculate_final_grade (scores : ComponentScores) : String × ℚ :=
  let final_score :=
    scores.feature_compliance * (40 / 100 : ℚ) + scores.threshold_accuracy * (30 / 100 : ℚ) +
      scores.performance_metrics * (10 / 100 : ℚ) + scores.xai_trust_score * (20 / 100 : ℚ)
  let grade :=
    if final_score ≥ 90 then "A"
    else if final_score ≥ 80 then "B"
    else if final_score ≥ 70 then "C"
    else if final_score ≥ 60 then "D"
    else "F"
  (grade, final_score)

/-- The `GOOGLE_API_KEY` constant in the source is the empty string, so
`_generate_llm_summary` always returns this fixed message. -/
def llm_skipped_summary : String :=
  "LLM summary skipped because the Google API key is not configured."

/-- The final report dict assembled by `run_voter`. -/
structure FinalReport where
  audited_file : String
  agency : String
  final_compliance_grade : String
  final_weighted_score : ℚ
  component_scores : ComponentScores
  llm_summary : String
  validation_report : ValidationDict
  compliance_report : ComplianceDict
  xai_report : XaiDict
  performance_report : PerformanceDict
deriving DecidableEq

/-- `VotingAgent.run_voter`; `none` models the exception escaping from
`_calculate_scores`. -/
def run_voter (validation_report : ValidationDict) (compliance_report : ComplianceDict)
    (xai_report : XaiDict) (performance_report : PerformanceDict)
    (model_features : List String) : Option FinalReport :=
  match calculate_scores validation_report compliance_report performance_report model_features with
  | none => none
  | some scores =>
    let gs := calculate_final_grade scores
    some { audited_file := validation_report.file_path.getD "N/A",
           agency := validation_report.agency.getD "N/A",
           final_compliance_grade := gs.1, final_weighted_score := gs.2,
           component_scores := scores, llm_summary := llm_skipped_summary,
           validation_report := validation_report, compliance_report := compliance_report,
           xai_report := xai_report, performance_report := performance_report }

/-! ## Derived-column bookkeeping and the spec-side score -/

/-- The derived column names the checker loop appends, in loop order. -/
def derived_names (agency_regs : AgencyRegs) (agency_key : String)
    (cols : List String) : List String :=
  cols.filterMap fun c =>
    if (all_param_ids agency_regs).contains c then
      if agency_key = "cpcb_standards" then some (c ++ "_Category")
      else if agency_key = "epa_standards" then some (c ++ "_Violation")
      else none
    else none

/-- The categories of one parameter column, as strings. -/
def categorizeSeries (agency_regs : AgencyRegs) (param_id : String) :
    List Cell → Option (List String)
  | [] => some []
  | c :: rest =>
    match coerce_float c, categorizeSeries agency_regs param_id rest with
    | some q, some ds => some (get_cpcb_category q param_id agency_regs :: ds)
    | _, _ => none

/-- The aggregate score as the spec words it: from the *first checked
parameter*'s derived category column, (rows categorized Good or Satisfactory)
/ (total rows) × 100.  Written from the spec for comparison with
`run_checker`, which instead keys on the frame's first column. -/
def spec_first_checked_score (agency_regs : AgencyRegs) (df : DataFrame) : Option ℚ :=
  match (columnNames df).filter (fun c => (all_param_ids agency_regs).contains c) with
  | [] => none
  | p :: _ =>
    match getColumn df p with
    | none => none
    | some cells =>
      match categorizeSeries agency_regs p cells with
      | none => none
      | some cats =>
        some (((cats.filter fun s => s == "Good" || s == "Satisfactory").length : ℚ) /
          (nrows df : ℚ) * 100)

/-! ## Concrete scenario inputs -/

/-- The CPCB `PM2_5` bins of the spec scenario:
`[0,50]=Good, [51,100]=Satisfactory, [101,null]=Severe`. -/
def pm25_bins : List AqiCategory :=
  [⟨0, some 50, "Good"⟩, ⟨51, some 100, "Satisfactory"⟩, ⟨101, none, "Severe"⟩]

/-- A category-rule agency with the single parameter `PM2_5`. -/
def cpcb_regs : AgencyRegs := ⟨[⟨"PM2_5", pm25_bins, []⟩]⟩

/-- The scenario dataset `[25, 75, 150]` in column `PM2_5`. -/
def df_scenario : DataFrame := [("PM2_5", [Cell.num 25, Cell.num 75, Cell.num 150])]

/-- The scenario frame after annotation: the derived category column is
appended. -/
def df_scenario_annotated : DataFrame :=
  [("PM2_5", [Cell.num 25, Cell.num 75, Cell.num 150]),
   ("PM2_5_Category", [Cell.catval "Good", Cell.catval "Satisfactory", Cell.catval "Severe"])]

/-- A frame whose *first* column is not a checked parameter. -/
def df_temp_first : DataFrame := [("Temperature", [Cell.num 20]), ("PM2_5", [Cell.num 25])]

/-- A frame with an original column whose name collides with the derived
column of the checked parameter `PM2_5`. -/
def df_collision : DataFrame :=
  [("PM2_5_Category", [Cell.nonnum "Old"]), ("PM2_5", [Cell.num 25])]

/-- An agency declaring required features `A`, `B`, `C`. -/
def regs_abc : AgencyRegs := ⟨[⟨"A", [], []⟩, ⟨"B", [], []⟩, ⟨"C", [], []⟩]⟩

/-- A dataset with columns `A`, `C`, `D`. -/
def df_acd : DataFrame := [("A", [Cell.num 1]), ("C", [Cell.num 2]), ("D", [Cell.num 3])]

/-- Voting scenario: a validation report requiring feature `A`. -/
def vr_scenario : ValidationDict := ⟨some "FAILURE", none, none, some ["A"]⟩

/-- Voting scenario: classification `status=FAILURE`. -/
def cr_scenario : ComplianceDict := ⟨some "FAILURE", none⟩

/-- Voting scenario: performance `status=SUCCESS`, `accuracy=0.9`. -/
def pr_scenario : PerformanceDict := ⟨some "SUCCESS", some (9 / 10)⟩

/-- A SUCCESS compliance report carrying the violation-rule score `"N/A"`,
exactly as `run_checker` emits for `epa_standards`. -/
def cr_na : ComplianceDict := ⟨some "SUCCESS", some "N/A"⟩

/-! ## Helper lemmas -/

theorem strAppend_cancel_right {a b s : String} (h : a ++ s = b ++ s) : a = b := by
  have hd : a.data ++ s.data = b.data ++ s.data := by
    have := congrArg String.data h
    simpa [String.data_append] using this
  have hdata : a.data = b.data := List.append_cancel_right hd
  cases a; cases b
  exact congrArg String.mk hdata

theorem firstCategory_eq_find (value : ℚ) :
    ∀ cats : List AqiCategory,
      firstCategory cats value = (cats.find? fun c => binMatches c value).map (·.category) := by
  intro cats
  induction cats with
  | nil => rfl
  | cons c rest ih =>
    cases hb : binMatches c value with
    | true => simp [firstCategory, List.find?_cons, hb]
    | false => simp [firstCategory, List.find?_cons, hb, ih]

theorem lookupStore_eq_none_of_not_mem :
    ∀ (l : RegulationStore) (key : String), key ∉ l.map Prod.fst → lookupStore l key = none := by
  intro l key h
  induction l with
  | nil => rfl
  | cons p rest ih =>
    simp only [List.map_cons, List.mem_cons] at h
    push_neg at h
    simp only [lookupStore]
    rw [if_neg (fun he => h.1 he.symm)]
    exact ih h.2

theorem getColumn_eq_none_of_not_mem :
    ∀ (df : DataFrame) (c : String), c ∉ columnNames df → getColumn df c = none := by
  intro df c h
  induction df with
  | nil => rfl
  | cons p rest ih =>
    simp only [columnNames, List.map_cons, List.mem_cons] at h
    push_neg at h
    simp only [getColumn]
    rw [if_neg (fun he => h.1 he.symm)]
    exact ih h.2

theorem columnNames_setColumn_of_not_mem :
    ∀ (df : DataFrame) (name : String) (cells : List Cell), name ∉ columnNames df →
      columnNames (setColumn df name cells) = columnNames df ++ [name] := by
  intro df name cells h
  induction df with
  | nil => rfl
  | cons p rest ih =>
    simp only [columnNames, List.map_cons, List.mem_cons] at h
    push_neg at h
    simp only [setColumn]
    rw [if_neg (fun he => h.1 he.symm)]
    simp only [columnNames, List.map_cons, List.cons_append, List.cons.injEq, true_and]
    exact ih h.2

theorem getColumn_setColumn_ne :
    ∀ (df : DataFrame) (name : String) (cells : List Cell) (c : String), c ≠ name →
      getColumn (setColumn df name cells) c = getColumn df c := by
  intro df name cells c h
  induction df with
  | nil =>
    simp only [setColumn, getColumn]
    rw [if_neg (fun he => h he.symm)]
  | cons p rest ih =>
    simp only [setColumn]
    by_cases hp : p.1 = name
    · rw [if_pos hp]
      simp only [getColumn]
      rw [if_neg (fun he => h he.symm), if_neg (fun he : p.1 = c => h (hp ▸ he).symm)]
    · rw [if_neg hp]
      simp only [getColumn]
      by_cases hc : p.1 = c
      · rw [if_pos hc, if_pos hc]
      · rw [if_neg hc, if_neg hc]
        exact ih

theorem getColumn_setColumn_self :
    ∀ (df : DataFrame) (name : String) (cells : List Cell),
      getColumn (setColumn df name cells) name = some cells := by
  intro df name cells
  induction df with
  | nil => simp [setColumn, getColumn]
  | cons p rest ih =>
    simp only [setColumn]
    by_cases hp : p.1 = name
    · rw [if_pos hp]
      simp [getColumn]
    · rw [if_neg hp]
      simp only [getColumn]
      rw [if_neg hp]
      exact ih

theorem applyCategoryColumn_eq_categorize (regs : AgencyRegs) (pid : String) :
    ∀ cells : List Cell,
      applyCategoryColumn regs pid cells =
        (categorizeSeries regs pid cells).map (List.map Cell.catval) := by
  intro cells
  induction cells with
  | nil => rfl
  | cons c cs ih =>
    simp only [applyCategoryColumn] at ih
    simp only [applyCategoryColumn, applySeries, categorizeSeries, ih]
    cases hf : coerce_float c <;> cases hcs : categorizeSeries regs pid cs <;> simp [hcs]

theorem isCompliantCell_catval (s : String) :
    isCompliantCell (Cell.catval s) = (s == "Good" || s == "Satisfactory") := by
  simp only [isCompliantCell]
  by_cases h1 : s = "Good"
  · subst h1; rfl
  · by_cases h2 : s = "Satisfactory"
    · subst h2; rfl
    · have e1 : (Cell.catval s == Cell.catval "Good") = false := by
        rw [beq_eq_false_iff_ne]
        intro he
        exact h1 (by injection he)
      have e2 : (Cell.catval s == Cell.catval "Satisfactory") = false := by
        rw [beq_eq_false_iff_ne]
        intro he
        exact h2 (by injection he)
      have e3 : (s == "Good") = false := by
        rw [beq_eq_false_iff_ne]; exact h1
      have e4 : (s == "Satisfactory") = false := by
        rw [beq_eq_false_iff_ne]; exact h2
      rw [e1, e2, e3, e4]

theorem compliant_count_map_catval (cats : List String) :
    ((cats.map Cell.catval).filter isCompliantCell).length =
      (cats.filter fun s => s == "Good" || s == "Satisfactory").length := by
  induction cats with
  | nil => rfl
  | cons s rest ih =>
    simp only [List.map_cons, List.filter_cons, isCompliantCell_catval]
    cases h : (s == "Good" || s == "Satisfactory") <;> simp [ih]

/-- Frame property of the annotation loop: under freshness and distinctness of
the derived column names, the loop appends exactly the derived columns and
leaves every other column untouched. -/
theorem annotate_frame (regs : AgencyRegs) (key : String) :
    ∀ (cols : List String) (df df' : DataFrame),
      (derived_names regs key cols).Nodup →
      (∀ d ∈ derived_names regs key cols, d ∉ columnNames df) →
      annotateColumns regs key cols df = some df' →
      columnNames df' = columnNames df ++ derived_names regs key cols ∧
      ∀ c, c ∉ derived_names regs key cols → getColumn df' c = getColumn df c := by
  intro cols
  induction cols with
  | nil =>
    intro df df' _ _ h
    simp only [annotateColumns, Option.some.injEq] at h
    subst h
    simp [derived_names]
  | cons c rest ih =>
    intro df df' hnd hfresh hann
    unfold annotateColumns at hann
    by_cases hc : (all_param_ids regs).contains c = true
    · have hm : c ∈ all_param_ids regs := by simpa using hc
      rw [if_pos hc] at hann
      by_cases hk1 : key = "cpcb_standards"
      · rw [if_pos hk1] at hann
        have hder : derived_names regs key (c :: rest) =
            (c ++ "_Category") :: derived_names regs key rest := by
          simp [derived_names, hm, hk1]
        cases hg : getColumn df c with
        | none =>
          simp only [hg] at hann
          exact absurd hann (by simp)
        | some cells =>
          simp only [hg] at hann
          cases ha : applyCategoryColumn regs c cells with
          | none =>
            simp only [ha] at hann
            exact absurd hann (by simp)
          | some newCells =>
            simp only [ha] at hann
            have hnotmem : (c ++ "_Category") ∉ columnNames df := by
              apply hfresh
              rw [hder]
              exact List.mem_cons_self _ _
            have hcols1 : columnNames (setColumn df (c ++ "_Category") newCells) =
                columnNames df ++ [c ++ "_Category"] :=
              columnNames_setColumn_of_not_mem df _ newCells hnotmem
            have hnd0 := hnd
            rw [hder] at hnd0
            have hnd' : (derived_names regs key rest).Nodup := hnd0.of_cons
            have hnm_not : (c ++ "_Category") ∉ derived_names regs key rest :=
              (List.nodup_cons.mp hnd0).1
            have hfresh' : ∀ d ∈ derived_names regs key rest,
                d ∉ columnNames (setColumn df (c ++ "_Category") newCells) := by
              intro d hd
              rw [hcols1]
              simp only [List.mem_append, List.mem_singleton]
              push_neg
              refine ⟨hfresh d ?_, fun he => hnm_not (he ▸ hd)⟩
              rw [hder]
              exact List.mem_cons_of_mem _ hd
            obtain ⟨ih1, ih2⟩ := ih (setColumn df (c ++ "_Category") newCells) df' hnd' hfresh' hann
            constructor
            · rw [hder, ih1, hcols1]
              simp [List.append_assoc]
            · intro x hx
              rw [hder] at hx
              simp only [List.mem_cons] at hx
              push_neg at hx
              rw [ih2 x hx.2, getColumn_setColumn_ne df _ newCells x hx.1]
      · rw [if_neg hk1] at hann
        by_cases hk2 : key = "epa_standards"
        · rw [if_pos hk2] at hann
          have hder : derived_names regs key (c :: rest) =
              (c ++ "_Violation") :: derived_names regs key rest := by
            simp [derived_names, hm, hk1, hk2]
          cases hg : getColumn df c with
          | none =>
            simp only [hg] at hann
            exact absurd hann (by simp)
          | some cells =>
            simp only [hg] at hann
            cases ha : applyViolationColumn regs c cells with
            | none =>
              simp only [ha] at hann
              exact absurd hann (by simp)
            | some newCells =>
              simp only [ha] at hann
              have hnotmem : (c ++ "_Violation") ∉ columnNames df := by
                apply hfresh
                rw [hder]
                exact List.mem_cons_self _ _
              have hcols1 : columnNames (setColumn df (c ++ "_Violation") newCells) =
                  columnNames df ++ [c ++ "_Violation"] :=
                columnNames_setColumn_of_not_mem df _ newCells hnotmem
              have hnd0 := hnd
              rw [hder] at hnd0
              have hnd' : (derived_names regs key rest).Nodup := hnd0.of_cons
              have hnm_not : (c ++ "_Violation") ∉ derived_names regs key rest :=
                (List.nodup_cons.mp hnd0).1
              have hfresh' : ∀ d ∈ derived_names regs key rest,
                  d ∉ columnNames (setColumn df (c ++ "_Violation") newCells) := by
                intro d hd
                rw [hcols1]
                simp only [List.mem_append, List.mem_singleton]
                push_neg
                refine ⟨hfresh d ?_, fun he => hnm_not (he ▸ hd)⟩
                rw [hder]
                exact List.mem_cons_of_mem _ hd
              obtain ⟨ih1, ih2⟩ :=
                ih (setColumn df (c ++ "_Violation") newCells) df' hnd' hfresh' hann
              constructor
              · rw [hder, ih1, hcols1]
                simp [List.append_assoc]
              · intro x hx
                rw [hder] at hx
                simp only [List.mem_cons] at hx
                push_neg at hx
                rw [ih2 x hx.2, getColumn_setColumn_ne df _ newCells x hx.1]
        · rw [if_neg hk2] at hann
          have hder : derived_names regs key (c :: rest) = derived_names regs key rest := by
            simp [derived_names, hm, hk1, hk2]
          rw [hder] at hnd hfresh ⊢
          exact ih df df' hnd hfresh hann
    · have hm' : c ∉ all_param_ids regs := by simpa using hc
      rw [if_neg hc] at hann
      have hder : derived_names regs key (c :: rest) = derived_names regs key rest := by
        simp [derived_names, hm']
      rw [hder] at hnd hfresh ⊢
      exact ih df df' hnd hfresh hann

end CCDF

namespace CCDF

/-! ## Claim theorems -/

/-- C4: for a category-rule agency, classification scans the ordered bins and
returns the category of the first bin with `min <= value` and (`max` unbounded
or `value <= max`), and `"Uncategorized"` when no bin matches, so every value
maps to exactly one category; scenario: bins `[0,50]=Good, [51,100]=Satisfactory,
[101,unbounded]=Severe` send 25, 75, 150 to Good, Satisfactory, Severe, with
distribution `{Good:1, Satisfactory:1, Severe:1}` and score `66.67%`. -/
theorem category_first_match_total :
    (∀ (value : ℚ) (param_id : String) (cats : List AqiCategory)
        (naaqs : List NaaqsStandard),
      get_cpcb_category value param_id ⟨[⟨param_id, cats, naaqs⟩]⟩ =
        (((cats.find? fun c => binMatches c value).map AqiCategory.category).getD
          "Uncategorized")) ∧
    get_cpcb_category 25 "PM2_5" cpcb_regs = "Good" ∧
    get_cpcb_category 75 "PM2_5" cpcb_regs = "Satisfactory" ∧
    get_cpcb_category 150 "PM2_5" cpcb_regs = "Severe" ∧
    ((run_checker (some cpcb_regs) df_scenario "cpcb_standards").map fun pr =>
      pr.1.compliance_score_percent) = some (some "66.67%") ∧
    ((run_checker (some cpcb_regs) df_scenario "cpcb_standards").map fun pr =>
      pr.1.category_distribution.map fun d => (d "Good", d "Satisfactory", d "Severe")) =
      some (some (1, 1, 1)) := by
  refine ⟨?_, by decide, by decide, by decide, by with_unfolding_all decide,
    by with_unfolding_all decide⟩
  intro value param_id cats naaqs
  simp only [get_cpcb_category, get_cpcb_category_over, if_pos]
  rw [firstCategory_eq_find]
  cases hf : cats.find? fun c => binMatches c value <;> rfl

/-- C6: the feature-presence check computes, as sets,
`present = columns ∩ required`, `missing = required − columns`,
`extra = columns − required`; hence `present ∪ missing = required` and
`present ∩ missing = ∅`. -/
theorem feature_presence_set_algebra :
    ∀ dataset_columns required_features : List String,
      (check_feature_presence dataset_columns required_features).1 =
          dataset_columns.toFinset ∩ required_features.toFinset ∧
      (check_feature_presence dataset_columns required_features).2.1 =
          required_features.toFinset \ dataset_columns.toFinset ∧
      (check_feature_presence dataset_columns required_features).2.2 =
          dataset_columns.toFinset \ required_features.toFinset ∧
      (check_feature_presence dataset_columns required_features).1 ∪
          (check_feature_presence dataset_columns required_features).2.1 =
          required_features.toFinset ∧
      (check_feature_presence dataset_columns required_features).1 ∩
          (check_feature_presence dataset_columns required_features).2.1 = ∅ := by
  intro ds rf
  refine ⟨rfl, rfl, rfl, ?_, ?_⟩
  · ext x
    simp only [check_feature_presence, Finset.mem_union, Finset.mem_inter,
      Finset.mem_sdiff]
    tauto
  · ext x
    simp only [check_feature_presence, Finset.mem_inter, Finset.mem_sdiff,
      Finset.not_mem_empty, iff_false]
    tauto

/-- C10: when the agency key has no regulations in the store, `run_checker`
returns a FAILURE report whose message names the agency key, paired with the
input frame completely unchanged. -/
theorem checker_unknown_agency_passthrough :
    ∀ (df : DataFrame) (agency_key : String),
      run_checker none df agency_key =
        some ({ status := "FAILURE",
                message := some ("No regulations found for agency key \x27" ++
                  agency_key ++ "\x27."),
                agency := none, compliance_score_percent := none,
                category_distribution := none }, df) := by
  intro df agency_key
  rfl

/-- C9: `get` on an agency key that is not in the loaded store returns the
empty result (never fails), and re-invoking initialization after the first
successful load returns the same cached structure without re-loading. -/
theorem rkb_get_unknown_and_init_cached :
    (∀ (s : RKBState) (agency_key : String),
        agency_key ∉ s.regulations.map Prod.fst →
        get_regulation_by_agency s agency_key = none) ∧
    (∀ load_result reload_result : RegulationStore,
        rkb_init (some (rkb_init none load_result)) reload_result =
          rkb_init none load_result) := by
  constructor
  · intro s agency_key h
    exact lookupStore_eq_none_of_not_mem s.regulations agency_key h
  · intro l l'
    rfl

theorem rkb_get_unknown_and_init_cached_witness :
    ("no_such_agency" ∉ ([("cpcb_standards", cpcb_regs)] : RegulationStore).map Prod.fst) ∧
    get_regulation_by_agency ⟨[("cpcb_standards", cpcb_regs)], true⟩ "no_such_agency" = none :=
  ⟨by decide, rkb_get_unknown_and_init_cached.1
    ⟨[("cpcb_standards", cpcb_regs)], true⟩ "no_such_agency" (by decide)⟩

/-- C3: the weighted final score is
`0.40×feature_compliance + 0.30×threshold_accuracy + 0.20×xai_trust_score +
0.10×performance_metrics`; the grade is A iff score≥90, B iff 80≤score<90,
C iff 70≤score<80, D iff 60≤score<70, else F; and for classification FAILURE,
performance SUCCESS with accuracy 0.9 and feature compliance 100, the scores
are `{100, 0, 90, 85}` with weighted score 66 and grade D. -/
theorem weighted_score_and_grades :
    (∀ s : ComponentScores,
      (calculate_final_grade s).2 =
        (40 / 100 : ℚ) * s.feature_compliance + (30 / 100 : ℚ) * s.threshold_accuracy +
          (20 / 100 : ℚ) * s.xai_trust_score + (10 / 100 : ℚ) * s.performance_metrics) ∧
    (∀ s : ComponentScores,
      ((calculate_final_grade s).1 = "A" ↔ 90 ≤ (calculate_final_grade s).2) ∧
      ((calculate_final_grade s).1 = "B" ↔
        80 ≤ (calculate_final_grade s).2 ∧ (calculate_final_grade s).2 < 90) ∧
      ((calculate_final_grade s).1 = "C" ↔
        70 ≤ (calculate_final_grade s).2 ∧ (calculate_final_grade s).2 < 80) ∧
      ((calculate_final_grade s).1 = "D" ↔
        60 ≤ (calculate_final_grade s).2 ∧ (calculate_final_grade s).2 < 70) ∧
      ((calculate_final_grade s).1 = "F" ↔ (calculate_final_grade s).2 < 60)) ∧
    calculate_scores vr_scenario cr_scenario pr_scenario ["A"] =
      some ⟨100, 0, 90, 85⟩ ∧
    (calculate_scores vr_scenario cr_scenario pr_scenario ["A"]).map
      calculate_final_grade = some ("D", 66) := by
  refine ⟨?_, ?_, by with_unfolding_all decide, by with_unfolding_all decide⟩
  · intro s
    simp only [calculate_final_grade]
    ring
  · intro s
    simp only [calculate_final_grade]
    split_ifs with h1 h2 h3 h4 <;>
      refine ⟨?_, ?_, ?_, ?_, ?_⟩ <;> constructor <;> intro hx <;>
      first
        | rfl
        | exact absurd hx (by decide)
        | exact ⟨by linarith, by linarith⟩
        | linarith

/-- C5: the weighted final score lies in `[0,100]` whenever every component
score lies in `[0,100]`, however many upstream stages failed. -/
theorem final_score_bounded :
    ∀ s : ComponentScores,
      0 ≤ s.feature_compliance → s.feature_compliance ≤ 100 →
      0 ≤ s.threshold_accuracy → s.threshold_accuracy ≤ 100 →
      0 ≤ s.performance_metrics → s.performance_metrics ≤ 100 →
      0 ≤ s.xai_trust_score → s.xai_trust_score ≤ 100 →
      0 ≤ (calculate_final_grade s).2 ∧ (calculate_final_grade s).2 ≤ 100 := by
  intro s h1 h2 h3 h4 h5 h6 h7 h8
  simp only [calculate_final_grade]
  constructor <;> linarith

theorem final_score_bounded_witness :
    ((0 : ℚ) ≤ 100 ∧ (100 : ℚ) ≤ 100 ∧ (0 : ℚ) ≤ 0 ∧ (0 : ℚ) ≤ 100 ∧
      (0 : ℚ) ≤ 90 ∧ (90 : ℚ) ≤ 100 ∧ (0 : ℚ) ≤ 85 ∧ (85 : ℚ) ≤ 100) ∧
    0 ≤ (calculate_final_grade ⟨100, 0, 90, 85⟩).2 ∧
      (calculate_final_grade ⟨100, 0, 90, 85⟩).2 ≤ 100 :=
  ⟨by norm_num,
    final_score_bounded ⟨100, 0, 90, 85⟩ (by norm_num) (by norm_num) (by norm_num)
      (by norm_num) (by norm_num) (by norm_num) (by norm_num) (by norm_num)⟩

end CCDF

namespace CCDF

/-- C7: for a known agency key, validation reports FAILURE when `missing` is
non-empty (with a message listing the missing features), otherwise FAILURE
when `schema_errors` is non-empty, otherwise SUCCESS; scenario: required
`{A,B,C}` against columns `{A,C,D}` yields `present={A,C}`, `missing={B}`,
`extra={D}` and status FAILURE. -/
theorem validation_status_policy :
    (∀ (regs : AgencyRegs) (df : DataFrame) (file_path agency_key : String),
      get_required_features (some regs) ≠ [] →
      ∃ r : ValidationReport,
        run_validation (some regs) df file_path agency_key = ValidationResult.report r ∧
        (r.missing_features ≠ ∅ →
          r.status = "FAILURE" ∧
          r.message = "Dataset is missing required features: " ++
            pyStrListRepr (missing_list r.required_features (columnNames df))) ∧
        (r.missing_features = ∅ → r.schema_errors ≠ ∅ → r.status = "FAILURE") ∧
        (r.missing_features = ∅ → r.schema_errors = ∅ → r.status = "SUCCESS")) ∧
    run_validation (some regs_abc) df_acd "data.csv" "cpcb_standards" =
      ValidationResult.report
        { status := "FAILURE",
          message := "Dataset is missing required features: [\x27B\x27]",
          agency := "cpcb_standards", file_path := "data.csv",
          required_features := ["A", "B", "C"],
          present_features := {"A", "C"}, missing_features := {"B"},
          extra_features := {"D"}, schema_errors := ∅ } := by
  constructor
  · intro regs df file_path agency_key hreq
    have hne : ¬((get_required_features (some regs)).isEmpty = true) := by
      rw [List.isEmpty_iff]
      exact hreq
    simp only [run_validation]
    rw [if_neg hne]
    refine ⟨_, rfl, ?_, ?_, ?_⟩
    · intro hm
      dsimp only at hm ⊢
      rw [if_pos hm]
      exact ⟨rfl, rfl⟩
    · intro hm hs
      dsimp only at hm hs ⊢
      rw [if_neg (fun hcc => hcc hm), if_pos hs]
    · intro hm hs
      dsimp only at hm hs ⊢
      rw [if_neg (fun hcc => hcc hm), if_neg (fun hcc => hcc hs)]
  · decide

end CCDF

namespace CCDF

theorem validation_status_policy_witness :
    (get_required_features (some regs_abc) ≠ []) ∧
    validationStatusOf
      (run_validation (some regs_abc) df_acd "data.csv" "cpcb_standards") = "FAILURE" := by
  refine ⟨by decide, ?_⟩
  obtain ⟨r, hr, h1, h2, h3⟩ :=
    validation_status_policy.1 regs_abc df_acd "data.csv" "cpcb_standards" (by decide)
  have hrr : r =
      { status := "FAILURE",
        message := "Dataset is missing required features: [\x27B\x27]",
        agency := "cpcb_standards", file_path := "data.csv",
        required_features := ["A", "B", "C"],
        present_features := {"A", "C"}, missing_features := {"B"},
        extra_features := {"D"}, schema_errors := ∅ } :=
    ValidationResult.report.inj (hr.symm.trans validation_status_policy.2)
  rw [hr]
  show r.status = "FAILURE"
  exact (h1 (by rw [hrr]; decide)).1

end CCDF

namespace CCDF

/-- C1 counterexample: a combination in which the validation, explainability
and performance reports are all empty (a qualifying failed subset) but the
classification report is the SUCCESS/`"N/A"` report that `run_checker` emits
for violation-rule agencies makes `run_voter` raise (`float("N/A")`), so it
does not return a FinalReport. -/
theorem run_voter_na_score_raises :
    run_voter emptyValidationDict cr_na emptyXaiDict emptyPerformanceDict [] = none := by
  with_unfolding_all decide

/-- C1 (amended): whenever the classification report's status is not SUCCESS
or its score string parses as a float, `run_voter` returns a FinalReport in
which all four upstream reports are embedded verbatim, a non-SUCCESS
classification report contributes `threshold_accuracy = 0`, a non-SUCCESS
performance report contributes `performance_metrics = 0` and
`xai_trust_score = 0`, and a validation report with no `required_features`
entry contributes `feature_compliance = 0`.  (A SUCCESS classification report
whose score string does not parse — the violation-rule `"N/A"` — makes the
stage raise instead.) -/
theorem run_voter_resilient_amended :
    ∀ (vr : ValidationDict) (cr : ComplianceDict) (xr : XaiDict) (pr : PerformanceDict)
      (model_features : List String),
      (cr.status ≠ some "SUCCESS" ∨
        (pyFloat ((cr.compliance_score_percent.getD "0%").replace "%" "")).isSome = true) →
      ∃ fr : FinalReport,
        run_voter vr cr xr pr model_features = some fr ∧
        fr.validation_report = vr ∧ fr.compliance_report = cr ∧
        fr.xai_report = xr ∧ fr.performance_report = pr ∧
        (cr.status ≠ some "SUCCESS" → fr.component_scores.threshold_accuracy = 0) ∧
        (pr.status ≠ some "SUCCESS" →
          fr.component_scores.performance_metrics = 0 ∧
          fr.component_scores.xai_trust_score = 0) ∧
        (vr.required_features.getD [] = [] →
          fr.component_scores.feature_compliance = 0) := by
  intro vr cr xr pr model_features h
  by_cases hcs : cr.status = some "SUCCESS"
  · have hsome := h.resolve_left (fun hA => hA hcs)
    obtain ⟨q, hq⟩ := Option.isSome_iff_exists.mp hsome
    simp only [run_voter, calculate_scores, if_pos hcs, hq]
    refine ⟨_, rfl, rfl, rfl, rfl, rfl, fun hc => absurd hcs hc, fun hps => ?_, fun hreq => ?_⟩
    · dsimp only
      rw [if_neg hps, if_neg hps]
      exact ⟨rfl, rfl⟩
    · dsimp only
      rw [if_pos (show (vr.required_features.getD []).toFinset = ∅ by rw [hreq]; simp)]
  · simp only [run_voter, calculate_scores, if_neg hcs]
    refine ⟨_, rfl, rfl, rfl, rfl, rfl, fun _ => rfl, fun hps => ?_, fun hreq => ?_⟩
    · dsimp only
      rw [if_neg hps, if_neg hps]
      exact ⟨rfl, rfl⟩
    · dsimp only
      rw [if_pos (show (vr.required_features.getD []).toFinset = ∅ by rw [hreq]; simp)]

theorem run_voter_resilient_amended_witness :
    (emptyComplianceDict.status ≠ some "SUCCESS" ∨
      (pyFloat ((emptyComplianceDict.compliance_score_percent.getD "0%").replace "%" "")).isSome
        = true) ∧
    (run_voter emptyValidationDict emptyComplianceDict emptyXaiDict emptyPerformanceDict
      []).isSome = true := by
  refine ⟨Or.inl (by decide), ?_⟩
  obtain ⟨fr, hfr, -, -, -, -, -, -, -⟩ :=
    run_voter_resilient_amended emptyValidationDict emptyComplianceDict emptyXaiDict
      emptyPerformanceDict [] (Or.inl (by decide))
  rw [hfr]
  rfl

end CCDF

namespace CCDF

theorem nrows_eq_of_head (processed : DataFrame) (fn : String) (cs : List Cell)
    (h1 : (columnNames processed).head? = some fn)
    (h2 : getColumn processed fn = some cs) : nrows processed = cs.length := by
  cases processed with
  | nil => simp [columnNames] at h1
  | cons p rest =>
    obtain ⟨n, cells⟩ := p
    simp only [columnNames, List.map_cons, List.head?_cons, Option.some.injEq] at h1
    subst h1
    simp only [getColumn, if_pos, Option.some.injEq] at h2
    simp [nrows, h2]

theorem head?_append_of_head? {α : Type} (l1 l2 : List α) (a : α)
    (h : l1.head? = some a) : (l1 ++ l2).head? = some a := by
  cases l1 with
  | nil => simp at h
  | cons x xs => simpa using h

theorem mem_derived_cpcb (regs : AgencyRegs) (cols : List String) (d : String)
    (hd : d ∈ derived_names regs "cpcb_standards" cols) :
    ∃ c, c ∈ cols ∧ c ∈ all_param_ids regs ∧ d = c ++ "_Category" := by
  simp only [derived_names, List.mem_filterMap] at hd
  obtain ⟨c, hc, hcond⟩ := hd
  by_cases hin : c ∈ all_param_ids regs
  · refine ⟨c, hc, hin, ?_⟩
    simp [hin] at hcond
    exact hcond.symm
  · simp [hin] at hcond

end CCDF

namespace CCDF

theorem run_checker_out (regs : AgencyRegs) (df : DataFrame) (agency_key : String)
    (r : ComplianceReport) (out : DataFrame)
    (h : run_checker (some regs) df agency_key = some (r, out)) :
    annotateColumns regs agency_key (columnNames df) df = some out := by
  simp only [run_checker] at h
  cases hann : annotateColumns regs agency_key (columnNames df) df with
  | none =>
    rw [hann] at h
    exact Option.noConfusion h
  | some processed =>
    simp only [hann] at h
    split_ifs at h with hc
    · cases hh : (columnNames processed).head? with
      | none => rw [hh] at h; simp at h
      | some fn =>
        rw [hh] at h
        simp only [Option.some.injEq, Prod.mk.injEq] at h
        rw [h.2]
    · simp only [Option.some.injEq, Prod.mk.injEq] at h
      rw [h.2]

/-- C8 counterexample: with an original column literally named
`PM2_5_Category`, pandas column assignment overwrites it, so an original
column's values change in the classifier's annotated output. -/
theorem checker_overwrites_colliding_column :
    getColumn df_collision "PM2_5_Category" = some [Cell.nonnum "Old"] ∧
    ((run_checker (some cpcb_regs) df_collision "cpcb_standards").map fun pr =>
      getColumn pr.2 "PM2_5_Category") = some (some [Cell.catval "Good"]) ∧
    ([Cell.catval "Good"] : List Cell) ≠ [Cell.nonnum "Old"] :=
  ⟨by decide, by with_unfolding_all decide, by decide⟩

/-- C8 (amended): validation is a pure report-producing function, and provided
no original column name collides with a derived column name (and the derived
names are distinct), the classifier's annotated output preserves every
original column's values and appends exactly the derived columns, each named
`<param>_Category` or `<param>_Violation` after a checked parameter column;
columns matching no declared parameter id get no derived column. -/
theorem checker_frame_amended :
    ∀ (regs : AgencyRegs) (agency_key : String) (df : DataFrame)
      (r : ComplianceReport) (out : DataFrame),
      (derived_names regs agency_key (columnNames df)).Nodup →
      (∀ d ∈ derived_names regs agency_key (columnNames df), d ∉ columnNames df) →
      run_checker (some regs) df agency_key = some (r, out) →
      (∀ c ∈ columnNames df, getColumn out c = getColumn df c) ∧
      columnNames out = columnNames df ++ derived_names regs agency_key (columnNames df) ∧
      (∀ d ∈ derived_names regs agency_key (columnNames df),
        ∃ c, c ∈ columnNames df ∧ c ∈ all_param_ids regs ∧
          (d = c ++ "_Category" ∨ d = c ++ "_Violation")) := by
  intro regs agency_key df r out hnd hfresh hrun
  have hann := run_checker_out regs df agency_key r out hrun
  obtain ⟨h1, h2⟩ := annotate_frame regs agency_key (columnNames df) df out hnd hfresh hann
  refine ⟨?_, h1, ?_⟩
  · intro c hc
    exact h2 c (fun hd => hfresh c hd hc)
  · intro d hd
    simp only [derived_names, List.mem_filterMap] at hd
    obtain ⟨c, hc, hcond⟩ := hd
    by_cases hin : c ∈ all_param_ids regs
    · by_cases hk1 : agency_key = "cpcb_standards"
      · simp [hin, hk1] at hcond
        exact ⟨c, hc, hin, Or.inl hcond.symm⟩
      · by_cases hk2 : agency_key = "epa_standards"
        · simp [hin, hk1, hk2] at hcond
          exact ⟨c, hc, hin, Or.inr hcond.symm⟩
        · simp [hin, hk1, hk2] at hcond
    · simp [hin] at hcond

theorem checker_frame_amended_witness :
    getColumn df_scenario_annotated "PM2_5" = getColumn df_scenario "PM2_5" ∧
    columnNames df_scenario_annotated = ["PM2_5", "PM2_5_Category"] := by
  have hann : annotateColumns cpcb_regs "cpcb_standards" (columnNames df_scenario)
      df_scenario = some df_scenario_annotated := by
    with_unfolding_all decide
  cases hrc : run_checker (some cpcb_regs) df_scenario "cpcb_standards" with
  | none =>
    exfalso
    simp only [run_checker, hann] at hrc
    split_ifs at hrc
    all_goals simp_all [df_scenario_annotated, columnNames]
  | some pr =>
    obtain ⟨r, out⟩ := pr
    have hout : out = df_scenario_annotated := by
      have h2 := run_checker_out cpcb_regs df_scenario "cpcb_standards" r out hrc
      rw [hann] at h2
      exact (Option.some.inj h2).symm
    obtain ⟨h1, h2, -⟩ := checker_frame_amended cpcb_regs "cpcb_standards" df_scenario r out
      (by decide) (by decide) hrc
    rw [hout] at h1 h2
    exact ⟨h1 "PM2_5" (by decide), h2.trans (by decide)⟩

end CCDF

namespace CCDF

theorem run_checker_cpcb_report (regs : AgencyRegs) (df : DataFrame)
    (r : ComplianceReport) (out : DataFrame) (fn : String)
    (h : run_checker (some regs) df "cpcb_standards" = some (r, out))
    (hh : (columnNames out).head? = some fn)
    (hpos : 0 < nrows out) :
    r.compliance_score_percent = some (formatPercent
      (((match getColumn out (fn ++ "_Category") with
         | some cells => (cells.filter isCompliantCell).length
         | none => 0) : ℚ) / (nrows out : ℚ) * 100)) := by
  have hann := run_checker_out regs df "cpcb_standards" r out h
  simp only [run_checker, hann] at h
  rw [if_pos ⟨trivial, hpos⟩] at h
  simp only [hh] at h
  simp only [Option.some.injEq, Prod.mk.injEq] at h
  rw [← h.1]
  cases hg : getColumn out (fn ++ "_Category") with
  | none => simp only [hg]; rfl
  | some cells => simp only [hg]

theorem annotate_head_checked (regs : AgencyRegs) (fn : String) (cells0 : List Cell)
    (dfr : DataFrame) (newCells : List Cell) (out : DataFrame)
    (hcheck : fn ∈ all_param_ids regs)
    (hac : applyCategoryColumn regs fn cells0 = some newCells)
    (hnd : (derived_names regs "cpcb_standards" (fn :: columnNames dfr)).Nodup)
    (hfresh : ∀ d ∈ derived_names regs "cpcb_standards" (fn :: columnNames dfr),
      d ∉ columnNames ((fn, cells0) :: dfr))
    (hann : annotateColumns regs "cpcb_standards" (fn :: columnNames dfr)
      ((fn, cells0) :: dfr) = some out) :
    (columnNames out).head? = some fn ∧
    getColumn out fn = some cells0 ∧
    getColumn out (fn ++ "_Category") = some newCells := by
  have hcontains : (all_param_ids regs).contains fn = true := by simpa using hcheck
  have hgetfn : getColumn ((fn, cells0) :: dfr) fn = some cells0 := by simp [getColumn]
  have hstep : annotateColumns regs "cpcb_standards" (fn :: columnNames dfr)
      ((fn, cells0) :: dfr) =
      annotateColumns regs "cpcb_standards" (columnNames dfr)
        (setColumn ((fn, cells0) :: dfr) (fn ++ "_Category") newCells) := by
    simp only [annotateColumns, hcontains, hgetfn, hac]
    simp
  rw [hstep] at hann
  have hder_cons : derived_names regs "cpcb_standards" (fn :: columnNames dfr) =
      (fn ++ "_Category") :: derived_names regs "cpcb_standards" (columnNames dfr) := by
    simp [derived_names, hcheck]
  rw [hder_cons] at hnd hfresh
  have hnotmem : (fn ++ "_Category") ∉ columnNames ((fn, cells0) :: dfr) :=
    hfresh _ (List.mem_cons_self _ _)
  have hcols1 := columnNames_setColumn_of_not_mem ((fn, cells0) :: dfr) _ newCells hnotmem
  have hnd2 : (derived_names regs "cpcb_standards" (columnNames dfr)).Nodup := hnd.of_cons
  have hnm_not : (fn ++ "_Category") ∉ derived_names regs "cpcb_standards" (columnNames dfr) :=
    (List.nodup_cons.mp hnd).1
  have hfresh2 : ∀ d ∈ derived_names regs "cpcb_standards" (columnNames dfr),
      d ∉ columnNames (setColumn ((fn, cells0) :: dfr) (fn ++ "_Category") newCells) := by
    intro d hd
    rw [hcols1]
    simp only [List.mem_append, List.mem_singleton]
    push_neg
    refine ⟨hfresh d (List.mem_cons_of_mem _ hd), fun he => hnm_not (he ▸ hd)⟩
  obtain ⟨hcolsOut, hgetOut⟩ := annotate_frame regs "cpcb_standards" (columnNames dfr)
    (setColumn ((fn, cells0) :: dfr) (fn ++ "_Category") newCells) out hnd2 hfresh2 hann
  have hfn_mem : fn ∈ columnNames ((fn, cells0) :: dfr) := by simp [columnNames]
  refine ⟨?_, ?_, ?_⟩
  · rw [hcolsOut, hcols1]
    exact head?_append_of_head? _ _ _ (head?_append_of_head? _ _ _ rfl)
  · have hfn_not : fn ∉ derived_names regs "cpcb_standards" (columnNames dfr) := by
      intro hd
      exact hfresh fn (List.mem_cons_of_mem _ hd) hfn_mem
    rw [hgetOut fn hfn_not,
      getColumn_setColumn_ne _ _ _ _ (fun he => hnotmem (by rw [← he]; exact hfn_mem))]
    exact hgetfn
  · rw [hgetOut _ hnm_not]
    exact getColumn_setColumn_self _ _ _

end CCDF

namespace CCDF

/-- C2 counterexample: with columns `[Temperature, PM2_5]` under the
category-rule agency, the spec's "first checked parameter" score is 100%
while the code scores from the *first dataframe column* (`Temperature`), whose
derived column does not exist, yielding `0.00%` (a formatted string, not a
float). -/
theorem score_ignores_first_checked_parameter :
    spec_first_checked_score cpcb_regs df_temp_first = some 100 ∧
    ((run_checker (some cpcb_regs) df_temp_first "cpcb_standards").map fun pr =>
      pr.1.compliance_score_percent) = some (some "0.00%") ∧
    formatPercent 100 = "100.00%" ∧ ("0.00%" : String) ≠ "100.00%" :=
  ⟨by with_unfolding_all decide, by with_unfolding_all decide,
   by with_unfolding_all decide, by decide⟩

/-- C2 (amended): for the category-rule agency the scalar score is derived
from the column named `<first dataframe column>_Category`: when the frame's
first column is a checked parameter this agrees with the spec's
first-checked-parameter score, and otherwise the compliant count is 0 and the
reported score is `0.00%`; in both cases the report carries a two-decimal
percent *string*.  For the violation-rule agency the report carries the string
`"N/A"` (not a null float). -/
theorem compliance_score_first_column_amended :
    (∀ (regs : AgencyRegs) (df : DataFrame) (r : ComplianceReport) (out : DataFrame)
        (f : String),
      (columnNames df).head? = some f →
      0 < nrows df →
      (derived_names regs "cpcb_standards" (columnNames df)).Nodup →
      (∀ d ∈ derived_names regs "cpcb_standards" (columnNames df), d ∉ columnNames df) →
      run_checker (some regs) df "cpcb_standards" = some (r, out) →
      (f ∈ all_param_ids regs →
        ∃ q, spec_first_checked_score regs df = some q ∧
          r.compliance_score_percent = some (formatPercent q)) ∧
      (f ∉ all_param_ids regs → (f ++ "_Category") ∉ columnNames df →
        r.compliance_score_percent = some (formatPercent 0))) ∧
    (∀ (regs : AgencyRegs) (df : DataFrame) (r : ComplianceReport) (out : DataFrame),
      run_checker (some regs) df "epa_standards" = some (r, out) →
      r.compliance_score_percent = some "N/A") := by
  constructor
  · intro regs df r out f hhead hpos hnd hfresh hrun
    have hann := run_checker_out regs df "cpcb_standards" r out hrun
    cases df with
    | nil => simp [columnNames] at hhead
    | cons p dfr =>
      obtain ⟨fn, cells0⟩ := p
      have hfe : fn = f := by simpa [columnNames] using hhead
      subst hfe
      have hann' : annotateColumns regs "cpcb_standards" (fn :: columnNames dfr)
          ((fn, cells0) :: dfr) = some out := hann
      have hnd' : (derived_names regs "cpcb_standards" (fn :: columnNames dfr)).Nodup := hnd
      have hfresh' : ∀ d ∈ derived_names regs "cpcb_standards" (fn :: columnNames dfr),
          d ∉ columnNames ((fn, cells0) :: dfr) := hfresh
      have hpos0 : 0 < cells0.length := hpos
      constructor
      · intro hcheck
        have hcontains : (all_param_ids regs).contains fn = true := by simpa using hcheck
        have hgetfn : getColumn ((fn, cells0) :: dfr) fn = some cells0 := by simp [getColumn]
        cases hac : applyCategoryColumn regs fn cells0 with
        | none =>
          exfalso
          have hnone : annotateColumns regs "cpcb_standards" (fn :: columnNames dfr)
              ((fn, cells0) :: dfr) = none := by
            simp only [annotateColumns, hcontains, hgetfn, hac]
            simp
          rw [hnone] at hann'
          exact Option.noConfusion hann'
        | some newCells =>
          obtain ⟨hh1, hh2, hh3⟩ := annotate_head_checked regs fn cells0 dfr newCells out
            hcheck hac hnd' hfresh' hann'
          have hnr : nrows out = cells0.length := nrows_eq_of_head out fn cells0 hh1 hh2
          have hposOut : 0 < nrows out := by rw [hnr]; exact hpos0
          have hrep := run_checker_cpcb_report regs ((fn, cells0) :: dfr) r out fn hrun
            hh1 hposOut
          simp only [hh3] at hrep
          have hmap : (categorizeSeries regs fn cells0).map (List.map Cell.catval) =
              some newCells := by
            rw [← applyCategoryColumn_eq_categorize]
            exact hac
          cases hcs : categorizeSeries regs fn cells0 with
          | none => rw [hcs] at hmap; exact absurd hmap (by simp)
          | some cats =>
            rw [hcs] at hmap
            simp only [Option.map_some', Option.some.injEq] at hmap
            refine ⟨((cats.filter fun s => s == "Good" || s == "Satisfactory").length : ℚ) /
              (nrows ((fn, cells0) :: dfr) : ℚ) * 100, ?_, ?_⟩
            · simp only [spec_first_checked_score, hgetfn, hcs]
              simp only [columnNames, List.map_cons, List.filter_cons]
              simp only [hcontains, if_true, hgetfn, hcs]
            · rw [hrep]
              have hlen : (newCells.filter isCompliantCell).length =
                  (cats.filter fun s => s == "Good" || s == "Satisfactory").length := by
                rw [← hmap]
                exact compliant_count_map_catval cats
              rw [hlen, hnr]
              rfl
      · intro hcheck hfcat
        have hcontains : (all_param_ids regs).contains fn = false := by simpa using hcheck
        have hncontains : ¬((all_param_ids regs).contains fn = true) := by
          simpa using hcheck
        have hstep : annotateColumns regs "cpcb_standards" (fn :: columnNames dfr)
            ((fn, cells0) :: dfr) =
            annotateColumns regs "cpcb_standards" (columnNames dfr) ((fn, cells0) :: dfr) := by
          simp only [annotateColumns]
          rw [if_neg hncontains]
        rw [hstep] at hann'
        have hder_cons : derived_names regs "cpcb_standards" (fn :: columnNames dfr) =
            derived_names regs "cpcb_standards" (columnNames dfr) := by
          simp [derived_names, hcheck]
        rw [hder_cons] at hnd' hfresh'
        obtain ⟨hcolsOut, hgetOut⟩ := annotate_frame regs "cpcb_standards" (columnNames dfr)
          ((fn, cells0) :: dfr) out hnd' hfresh' hann'
        have hfn_mem : fn ∈ columnNames ((fn, cells0) :: dfr) := by simp [columnNames]
        have hh1 : (columnNames out).head? = some fn := by
          rw [hcolsOut]
          exact head?_append_of_head? _ _ _ rfl
        have hfn_not : fn ∉ derived_names regs "cpcb_standards" (columnNames dfr) :=
          fun hd => hfresh' fn hd hfn_mem
        have hh2 : getColumn out fn = some cells0 := by
          rw [hgetOut fn hfn_not]
          simp [getColumn]
        have hnr : nrows out = cells0.length := nrows_eq_of_head out fn cells0 hh1 hh2
        have hposOut : 0 < nrows out := by rw [hnr]; exact hpos0
        have hrep := run_checker_cpcb_report regs ((fn, cells0) :: dfr) r out fn hrun
          hh1 hposOut
        have hfcat_nd : (fn ++ "_Category") ∉
            derived_names regs "cpcb_standards" (columnNames dfr) := by
          intro hd
          obtain ⟨c, -, hcp, hceq⟩ := mem_derived_cpcb regs (columnNames dfr) _ hd
          have hfc : fn = c := strAppend_cancel_right hceq
          exact hcheck (hfc ▸ hcp)
        have hh3 : getColumn out (fn ++ "_Category") = none := by
          rw [hgetOut _ hfcat_nd]
          exact getColumn_eq_none_of_not_mem _ _ hfcat
        simp only [hh3, Nat.cast_zero, CharP.cast_eq_zero, zero_div, zero_mul] at hrep
        exact hrep
  · intro regs df r out h
    have hann := run_checker_out regs df "epa_standards" r out h
    simp only [run_checker, hann] at h
    rw [if_neg (fun hcc => absurd hcc.1 (by decide))] at h
    simp only [Option.some.injEq, Prod.mk.injEq] at h
    rw [← h.1]

theorem compliance_score_first_column_amended_witness :
    ("PM2_5" ∈ all_param_ids cpcb_regs) ∧
    spec_first_checked_score cpcb_regs df_scenario = some (200 / 3) ∧
    ((run_checker (some cpcb_regs) df_scenario "cpcb_standards").map fun pr =>
      pr.1.compliance_score_percent) = some (some "66.67%") := by
  refine ⟨by decide, by with_unfolding_all decide, ?_⟩
  have hann : annotateColumns cpcb_regs "cpcb_standards" (columnNames df_scenario)
      df_scenario = some df_scenario_annotated := by
    with_unfolding_all decide
  cases hrc : run_checker (some cpcb_regs) df_scenario "cpcb_standards" with
  | none =>
    exfalso
    simp only [run_checker, hann] at hrc
    split_ifs at hrc
    all_goals simp_all [df_scenario_annotated, columnNames]
  | some pr =>
    obtain ⟨r, out⟩ := pr
    obtain ⟨q, hq, hr⟩ := (compliance_score_first_column_amended.1 cpcb_regs df_scenario r out
      "PM2_5" rfl (by decide) (by decide) (by decide) hrc).1 (by decide)
    have hq2 : (some q : Option ℚ) = some (200 / 3 : ℚ) := by
      rw [← hq]
      with_unfolding_all decide
    have hq3 := Option.some.inj hq2
    have hfmt : formatPercent ((200 : ℚ) / 3) = "66.67%" := by with_unfolding_all decide
    simp only [Option.map_some', Option.some.injEq]
    rw [hr, hq3, hfmt]

end CCDF
